import Mathlib

/-!
Shallow embedding of the fruticulture-logistics client
(marker store, CSV importer, marker form, map view save/delete,
submission client), together with theorems settling the spec claims.

JavaScript semantics are modelled explicitly:
* `parseInt(s, 10)` and `parseFloat(s)` return a number or NaN
  (`JNum` / `Option JFloat`; the exponent and Infinity forms of
  `parseFloat` input are not exercised by any theorem below);
* a marker's `quantidade` is whatever JS value the code stores
  (`QVal`: a number or a string);
* a missing CSV column reads as `undefined` (`Option String`), and
  calling `.trim()` on `undefined` throws a `TypeError`
  (`Except JsError`);
* `String.prototype.includes` is substring containment (`chSub`),
  `Array.prototype.filter((_, i) => ...)` is an index-aware filter
  (`jsFilterWithIndex`), and `arr[i] = v` on an in-bounds index is
  `List.set` (`jsArraySet`; for `i ≥ length` JS would build a sparse
  array, which this dense-list embedding does not represent — every
  theorem about it keeps the index in bounds, as the claims do).
-/

/-- JS `String.prototype.toLowerCase` restricted to one code point:
lowers the ASCII and Latin-1 uppercase ranges. All vocabulary and tag
strings in this program only contain uppercase letters from these
ranges. -/
def jsLowerChar (c : Char) : Char :=
  if 'A' ≤ c ∧ c ≤ 'Z' then Char.ofNat (c.toNat + 32)
  else if 'À' ≤ c ∧ c ≤ 'Þ' ∧ c ≠ '×' then Char.ofNat (c.toNat + 32)
  else c

/-- JS `s.toLowerCase()`. -/
def jsToLower (s : String) : String :=
  ⟨s.data.map jsLowerChar⟩

/-- JS `s.trim()`: strip leading and trailing whitespace. -/
def jsTrim (s : String) : String :=
  ⟨((s.data.dropWhile Char.isWhitespace).reverse.dropWhile
      Char.isWhitespace).reverse⟩

/-- Helper for JS `String.prototype.split` with a one-character
separator: split the character list at every separator occurrence,
accumulating the current chunk in reverse. -/
def splitCharAux (sep : Char) : List Char → List Char → List (List Char)
  | acc, [] => [acc.reverse]
  | acc, c :: rest =>
    if c == sep then acc.reverse :: splitCharAux sep [] rest
    else splitCharAux sep (c :: acc) rest

/-- JS `s.split(sep)` for a one-character separator: `"a,b"` gives
`["a", "b"]`, `""` gives `[""]`, `"a,"` gives `["a", ""]`. -/
def jsSplit (s : String) (sep : Char) : List String :=
  (splitCharAux sep [] s.data).map (fun cs => ⟨cs⟩)

/-- `chLeads needle hay` is true when `hay` starts with `needle`. -/
def chLeads : List Char → List Char → Bool
  | [], _ => true
  | _ :: _, [] => false
  | c :: cs, d :: ds => c == d && chLeads cs ds

/-- `chSub needle hay` is true when `needle` occurs contiguously inside
`hay`; this is JS `hay.includes(needle)` at the code-point level. -/
def chSub (needle : List Char) : List Char → Bool
  | [] => chLeads needle []
  | d :: ds => chLeads needle (d :: ds) || chSub needle ds

/-- JS `hay.includes(needle)` on strings. -/
def jsIncludes (hay needle : String) : Bool :=
  chSub needle.toList hay.toList

/-- Value of a list of decimal digit characters. -/
def digitsToNat (ds : List Char) : Nat :=
  ds.foldl (fun a c => a * 10 + (c.toNat - 48)) 0

/-- A JS number as produced by `parseInt`: an integer or NaN. -/
inductive JNum where
  | int (n : Int)
  | nan
  deriving DecidableEq, Repr

/-- JS `parseInt(s, 10)`: skip leading whitespace, read an optional
sign and then the longest run of decimal digits; NaN when that run is
empty. -/
def jsParseInt (s : String) : JNum :=
  let cs := s.toList.dropWhile Char.isWhitespace
  let p : Int × List Char :=
    match cs with
    | '-' :: rest => (-1, rest)
    | '+' :: rest => (1, rest)
    | _ => (1, cs)
  let ds := p.2.takeWhile Char.isDigit
  if ds.isEmpty then JNum.nan else JNum.int (p.1 * (digitsToNat ds : Int))

/-- A finite JS number kept as the exact unnormalized decimal that
was parsed: its value is `mantissa / 10 ^ scale` (see
`JFloat.toRat`). -/
structure JFloat where
  mantissa : Int
  scale : Nat
  deriving DecidableEq, Repr

/-- Numeric value of a parsed decimal. -/
def JFloat.toRat (f : JFloat) : ℚ :=
  (f.mantissa : ℚ) / (10 : ℚ) ^ f.scale

/-- JS `parseFloat(x)` where `x` may be `undefined` (a missing CSV
column): `parseFloat(undefined)` is NaN, modelled as `none`; otherwise
skip whitespace, read an optional sign, integer digits and an optional
fraction. NaN when no digit was read. -/
def jsParseFloat : Option String → Option JFloat
  | none => none
  | some s =>
    let cs := s.toList.dropWhile Char.isWhitespace
    let p : Int × List Char :=
      match cs with
      | '-' :: rest => (-1, rest)
      | '+' :: rest => (1, rest)
      | _ => (1, cs)
    let intDs := p.2.takeWhile Char.isDigit
    let rest := p.2.dropWhile Char.isDigit
    let fracDs :=
      match rest with
      | '.' :: r => r.takeWhile Char.isDigit
      | _ => []
    if intDs.isEmpty && fracDs.isEmpty then none
    else
      some ⟨p.1 * (digitsToNat intDs * 10 ^ fracDs.length + digitsToNat fracDs : Nat),
            fracDs.length⟩

/-- A thrown JS error. -/
inductive JsError where
  | typeError (msg : String)
  deriving DecidableEq, Repr

/-- The JS value the program stores in a marker's `quantidade` field:
a number (possibly NaN) from the form path, or a raw string from the
CSV path. -/
inductive QVal where
  | num (n : JNum)
  | str (s : String)
  deriving DecidableEq, Repr

/-- Whether a `quantidade` value is an actual integer (not NaN, not a
string). -/
def QVal.isIntVal : QVal → Bool
  | .num (.int _) => true
  | _ => false

/-- A coordinate pair; `none` models a NaN component (from
`parseFloat` of a malformed field). -/
structure Coords where
  lat : Option JFloat
  lng : Option JFloat
  deriving DecidableEq, Repr

/-- The Marker record of the data model, with the fields exactly as
the code builds them. -/
structure Marker where
  type : String
  coords : Coords
  frutas : List String
  quantidade : QVal
  deriving DecidableEq, Repr

/-- One header-keyed row delivered by the CSV parser; a column absent
from the row reads as `undefined`, i.e. `none`. -/
structure CsvRow where
  tipo : Option String
  lat : Option String
  long : Option String
  produtos : Option String
  quantidade : Option String
  deriving DecidableEq, Repr

/-- The CsvImporter row mapper (`CsvImporter.js`, `complete`
callback). Field by field:
* `type: row.tipo?.trim().toLowerCase() || "mercado"` — optional
  chaining, then `||` replaces `undefined` or `""` by `"mercado"`;
* `coords: { lat: parseFloat(row.lat), lng: parseFloat(row.long) }`;
* `frutas: row.produtos ? row.produtos.split(",").map(f => f.trim()) : []`
  — the ternary sends `undefined` and `""` to `[]`;
* `quantidade: row.quantidade.trim().toLowerCase() || 10` — NO
  optional chaining: a missing column throws
  `TypeError`, and a present one is stored as a trimmed lowercased
  STRING unless empty, in which case the number 10 is stored. -/
def mapRow (row : CsvRow) : Except JsError Marker := do
  let type :=
    match row.tipo with
    | none => "mercado"
    | some s =>
      let u := jsToLower (jsTrim s)
      if u = "" then "mercado" else u
  let coords : Coords := ⟨jsParseFloat row.lat, jsParseFloat row.long⟩
  let frutas :=
    match row.produtos with
    | none => []
    | some p => if p = "" then [] else (jsSplit p ',').map jsTrim
  let quantidade ←
    match row.quantidade with
    | none =>
      Except.error (JsError.typeError "Cannot read properties of undefined")
    | some q =>
      let ql := jsToLower (jsTrim q)
      Except.ok (if ql = "" then QVal.num (JNum.int 10) else QVal.str ql)
  pure { type := type, coords := coords, frutas := frutas,
         quantidade := quantidade }

/-- `results.data.map(row => ...)` in the `complete` callback: JS
`Array.prototype.map` with a throwing callback aborts at the first
throw, discarding everything. -/
def mapRows (rows : List CsvRow) : Except JsError (List Marker) :=
  rows.mapM mapRow

/-- The hard-coded fruit vocabulary of the Marker Form
(`Formulario.js`, `frutasDisponiveis`). -/
def frutasDisponiveis : List String :=
  ["Maçã", "Banana", "Laranja", "Manga", "Abacaxi",
   "Uva", "Melancia", "Pera", "Mamão", "Limão", "Kiwi"]

/-- `Formulario.js`, `frutasFiltradas`: keep the vocabulary entries
whose lowercased name CONTAINS the lowercased search string
(`f.toLowerCase().includes(busca.toLowerCase())`) and that are not
already selected. -/
def frutasFiltradas (busca : String) (selecionadas : List String) : List String :=
  frutasDisponiveis.filter
    (fun f => jsIncludes (jsToLower f) (jsToLower busca) && !(selecionadas.contains f))

/-- The Marker Form state fields the claims are about; `coords` is a
prop, not state, and is threaded separately. -/
structure FormState where
  quantidade : String
  tipo : String
  busca : String
  selecionadas : List String
  deriving DecidableEq, Repr

/-- `Formulario.js`, `adicionarFruta`: append the chosen fruit to the
selection and clear the search box. -/
def adicionarFruta (fruta : String) (st : FormState) : FormState :=
  { st with selecionadas := st.selecionadas ++ [fruta], busca := "" }

/-- `Formulario.js`, `removerFruta`: drop every occurrence of the
fruit from the selection (`selecionadas.filter(f => f !== fruta)`). -/
def removerFruta (fruta : String) (st : FormState) : FormState :=
  { st with selecionadas := st.selecionadas.filter (fun f => f != fruta) }

/-- The Marker Form events that can change its `tipo` state: the two
toggle buttons (`setTipo("mercado")` / `setTipo("produtor")`) and the
`useEffect` that syncs `tipo` from the `markerType` prop. -/
inductive FormEvent where
  | pressMercado
  | pressProdutor
  | syncMarkerType (markerType : String)
  deriving DecidableEq, Repr

/-- Projection of the form's transitions onto the `tipo` field, the
only field the type invariant concerns. -/
def tipoStep (_t : String) : FormEvent → String
  | .pressMercado => "mercado"
  | .pressProdutor => "produtor"
  | .syncMarkerType mt => mt

/-- The form's `tipo` after a sequence of events, starting from the
initial `markerType` prop. Unused binder name documents the source:
`useState(markerType)`. -/
def tipoAfter (markerType : String) (evs : List FormEvent) : String :=
  evs.foldl tipoStep markerType

/-- The object the form emits on save (`Formulario.js`, `salvar`):
`onSave({ tipo, coords, frutas: selecionadas, quantidade })` —
`quantidade` is still the raw text-input string here. -/
structure FormData where
  tipo : String
  coords : Coords
  frutas : List String
  quantidade : String
  deriving DecidableEq, Repr

/-- `Formulario.js`, `salvar`: bundle the current form state (and the
`coords` prop) into the emitted object. -/
def salvar (st : FormState) (coords : Coords) : FormData :=
  { tipo := st.tipo, coords := coords, frutas := st.selecionadas,
    quantidade := st.quantidade }

/-- JS `arr[i] = v` on a (dense, in-bounds) array copy. For
`i ≥ arr.length` JS would extend the array with holes; no theorem
below uses that case. -/
def jsArraySet (l : List Marker) (i : Nat) (v : Marker) : List Marker :=
  l.set i v

/-- Helper for the index-aware JS array filter: `filterIdxFrom f k l`
filters `l` with callback `f`, the first element having index `k`. -/
def filterIdxFrom {α : Type} (f : α → Nat → Bool) : Nat → List α → List α
  | _, [] => []
  | k, a :: l =>
    if f a k then a :: filterIdxFrom f (k + 1) l else filterIdxFrom f (k + 1) l

/-- JS `arr.filter((x, i) => f x i)`. -/
def jsFilterWithIndex {α : Type} (f : α → Nat → Bool) (l : List α) : List α :=
  filterIdxFrom f 0 l

/-- The Map View state fields that `handleSave` / `handleDelete`
read or write; the remaining component state (`newMarkerCoords`,
`markerType`, `frutas`) is untouched by both handlers. -/
structure MapState where
  markers : List Marker
  selectedMarkerIndex : Option Nat
  showForm : Bool
  deriving DecidableEq, Repr

/-- The marker object literal both `handleSave` implementations build:
`{ type: data.tipo, coords: data.coords, frutas: data.frutas,
quantidade: parseInt(data.quantidade, 10) }`. -/
def savedMarker (data : FormData) : Marker :=
  { type := data.tipo, coords := data.coords, frutas := data.frutas,
    quantidade := QVal.num (jsParseInt data.quantidade) }

/-- Web `handleSave` (`App.js` / `MapComponent.web`): with a selected
index, copy the list, overwrite that index and store the copy with
`setMarkers(updatedMarkers)`; with no selection, append. Either way
the selection is cleared and the form closed. -/
def handleSave_web (s : MapState) (data : FormData) : MapState :=
  match s.selectedMarkerIndex with
  | some i =>
    let updatedMarkers := jsArraySet s.markers i (savedMarker data)
    { markers := updatedMarkers, selectedMarkerIndex := none, showForm := false }
  | none =>
    { markers := s.markers ++ [savedMarker data],
      selectedMarkerIndex := none, showForm := false }

/-- Native `handleSave` (`MapComponent.native`): in the
selected-index branch the source builds `updatedMarkers` and assigns
into it but NEVER calls `setMarkers(updatedMarkers)` — the copy is a
dead local and the shared list keeps its old value. The append branch
does call `setMarkers`. -/
def handleSave_native (s : MapState) (data : FormData) : MapState :=
  match s.selectedMarkerIndex with
  | some i =>
    let _updatedMarkers := jsArraySet s.markers i (savedMarker data)
    { markers := s.markers, selectedMarkerIndex := none, showForm := false }
  | none =>
    { markers := s.markers ++ [savedMarker data],
      selectedMarkerIndex := none, showForm := false }

/-- Web `handleDelete`: with a selected index, keep the markers whose
position differs from it (`markers.filter((_, i) => i !== selectedMarkerIndex)`)
and clear the selection; in every case close the form. -/
def handleDelete_web (s : MapState) : MapState :=
  match s.selectedMarkerIndex with
  | some sel =>
    { markers := jsFilterWithIndex (fun _ i => i != sel) s.markers,
      selectedMarkerIndex := none, showForm := false }
  | none => { s with showForm := false }

/-- Native `handleDelete`: textually identical to the web one. -/
def handleDelete_native (s : MapState) : MapState :=
  match s.selectedMarkerIndex with
  | some sel =>
    { markers := jsFilterWithIndex (fun _ i => i != sel) s.markers,
      selectedMarkerIndex := none, showForm := false }
  | none => { s with showForm := false }

/-- An HTTP request as `connection.js` builds it; the body type is a
parameter because `JSON.stringify` is a platform builtin, passed in
uninterpreted. -/
structure Request (β : Type) where
  url : String
  method : String
  contentType : String
  body : β

/-- `connection.js`: `linkServer = 'http://127.0.0.1:8000'`. -/
def linkServer : String := "http://127.0.0.1:8000"

/-- `connection.js`, `submit(markers)`: one `fetch` of
`${linkServer}/find-optimal-location/` with method POST, a JSON
content type and body `JSON.stringify(markers)`, whose response is
returned as-is. The result pairs the raw response with the trace of
requests issued. -/
def submit {β ρ : Type} (stringify : List Marker → β)
    (fetchFn : Request β → ρ) (markers : List Marker) : ρ × List (Request β) :=
  let req : Request β :=
    { url := linkServer ++ "/find-optimal-location/", method := "POST",
      contentType := "application/json", body := stringify markers }
  (fetchFn req, [req])

theorem chLeads_iff (n h : List Char) : chLeads n h = true ↔ ∃ r, h = n ++ r := by
  induction n generalizing h with
  | nil => simp [chLeads]
  | cons c cs ih =>
    cases h with
    | nil => simp [chLeads]
    | cons d ds =>
      simp only [chLeads, Bool.and_eq_true, beq_iff_eq, ih, List.cons_append,
        List.cons.injEq]
      constructor
      · rintro ⟨rfl, r, rfl⟩
        exact ⟨r, rfl, rfl⟩
      · rintro ⟨r, rfl, rfl⟩
        exact ⟨rfl, r, rfl⟩

theorem chSub_iff (n h : List Char) : chSub n h = true ↔ ∃ l r, h = l ++ n ++ r := by
  induction h with
  | nil =>
    simp only [chSub, chLeads_iff]
    constructor
    · rintro ⟨r, hr⟩
      exact ⟨[], r, by simpa using hr⟩
    · rintro ⟨l, r, hr⟩
      have h2 : l = [] ∧ n = [] ∧ r = [] := by simpa using hr.symm
      exact ⟨r, by simp [h2.2.1, h2.2.2]⟩
  | cons d ds ih =>
    simp only [chSub, Bool.or_eq_true, chLeads_iff, ih]
    constructor
    · rintro (⟨r, hr⟩ | ⟨l, r, hr⟩)
      · exact ⟨[], r, by simpa using hr⟩
      · exact ⟨d :: l, r, by simp [hr]⟩
    · rintro ⟨l, r, he⟩
      cases l with
      | nil =>
        left
        exact ⟨r, by simpa using he⟩
      | cons x xs =>
        right
        rw [List.cons_append, List.cons_append] at he
        injection he with h1 h2
        exact ⟨xs, r, h2⟩

theorem filterIdxFrom_of_lt {α : Type} (l : List α) (k sel : Nat) (h : sel < k) :
    filterIdxFrom (fun _ i => i != sel) k l = l := by
  induction l generalizing k with
  | nil => rfl
  | cons a l ih =>
    have hk : (k != sel) = true := bne_iff_ne.mpr (by omega)
    simp [filterIdxFrom, hk, ih (k + 1) (by omega)]

theorem filterIdxFrom_eraseIdx {α : Type} (l : List α) (k j : Nat) (h : j < l.length) :
    filterIdxFrom (fun _ i => i != (k + j)) k l = l.eraseIdx j := by
  induction l generalizing k j with
  | nil => simp at h
  | cons a l ih =>
    cases j with
    | zero =>
      have h0 : (k != k + 0) = false := by simp
      simp only [filterIdxFrom, h0, Bool.false_eq_true, if_false, List.eraseIdx]
      exact filterIdxFrom_of_lt l (k + 1) (k + 0) (by omega)
    | succ j' =>
      have h1 : (k != k + (j' + 1)) = true := bne_iff_ne.mpr (by omega)
      have e : k + (j' + 1) = (k + 1) + j' := by omega
      rw [e] at h1 ⊢
      simp only [filterIdxFrom, h1, if_true, List.eraseIdx]
      exact congrArg (a :: ·) (ih (k + 1) j' (by simpa using h))

theorem jsFilterWithIndex_eraseIdx {α : Type} (l : List α) (j : Nat) (h : j < l.length) :
    jsFilterWithIndex (fun _ i => i != j) l = l.eraseIdx j := by
  have := filterIdxFrom_eraseIdx l 0 j h
  simpa [jsFilterWithIndex] using this

deriving instance DecidableEq for Except

/-- A concrete stored marker used by several concrete instances. -/
def mA : Marker :=
  { type := "mercado", coords := ⟨some ⟨1, 0⟩, some ⟨2, 0⟩⟩, frutas := ["Uva"],
    quantidade := QVal.num (JNum.int 5) }

/-- A second concrete stored marker. -/
def mB : Marker :=
  { type := "produtor", coords := ⟨some ⟨3, 0⟩, some ⟨4, 0⟩⟩, frutas := [],
    quantidade := QVal.num (JNum.int 7) }

/-- Concrete form data: an edit that turns a marker into a produtor. -/
def dC1 : FormData :=
  { tipo := "produtor", coords := ⟨some ⟨1, 0⟩, some ⟨2, 0⟩⟩, frutas := [],
    quantidade := "12" }

/-- Claim C1 (code bug): with markers `[mA]` and index 0 referenced,
saving the form updates element 0 in the web Map View, but the native
`handleSave` leaves the shared list unchanged — it builds
`updatedMarkers` and never calls `setMarkers`, so the claim fails on
the native implementation. -/
theorem c1_native_save_drops_update :
    (handleSave_native ⟨[mA], some 0, true⟩ dC1).markers = [mA] ∧
    (handleSave_web ⟨[mA], some 0, true⟩ dC1).markers = [savedMarker dC1] ∧
    savedMarker dC1 ≠ mA := by
  decide

/-- Claim C2 (code bug): a parsed row whose `quantidade` column is
missing makes the row mapper throw a `TypeError`
(`row.quantidade.trim()` with no optional chaining), and since the
`.map` over `results.data` aborts at the first throw, the valid first
row — which alone maps fine — is not imported either. -/
theorem c2_missing_quantidade_aborts_import :
    mapRows [⟨some "mercado", some "1", some "2", some "Uva,Pera", some "7"⟩,
             ⟨some "produtor", some "3", some "4", none, none⟩] =
      Except.error (JsError.typeError "Cannot read properties of undefined") ∧
    mapRows [⟨some "mercado", some "1", some "2", some "Uva,Pera", some "7"⟩] =
      Except.ok [{ type := "mercado", coords := ⟨some ⟨1, 0⟩, some ⟨2, 0⟩⟩,
                   frutas := ["Uva", "Pera"],
                   quantidade := QVal.str "7" }] := by
  decide

/-- The CSV `tipo` mapping as the amended claim C3 words it: missing
`tipo`, or `tipo` that is empty after trimming, defaults to
`"mercado"`; any other tag — the two known ones AND unknown ones — is
kept in trimmed lowercased form. -/
def csvTypeSpec : Option String → String
  | none => "mercado"
  | some s => if jsToLower (jsTrim s) = "" then "mercado" else jsToLower (jsTrim s)

/-- Claim C3 counterexample: a row whose `tipo` is the unknown tag
`"Fazenda"` maps to type `"fazenda"`, not `"mercado"` as the claim
states. -/
theorem c3_unknown_tipo_not_defaulted :
    mapRow ⟨some "Fazenda", some "1", some "2", some "a", some "5"⟩ =
      Except.ok { type := "fazenda", coords := ⟨some ⟨1, 0⟩, some ⟨2, 0⟩⟩,
                  frutas := ["a"], quantidade := QVal.str "5" } ∧
    "fazenda" ≠ "mercado" := by
  decide

/-- Claim C3 as amended: every successfully mapped row gets the type
`csvTypeSpec row.tipo` — `"mercado"` exactly when `tipo` is missing or
trims to empty, and the trimmed lowercased tag itself otherwise. -/
theorem c3_csv_type_mapping (row : CsvRow) (m : Marker)
    (h : mapRow row = Except.ok m) :
    m.type = csvTypeSpec row.tipo := by
  obtain ⟨tipo, lat, long, produtos, quantidade⟩ := row
  cases quantidade with
  | none => simp [mapRow] at h
  | some q =>
    simp only [mapRow, Bind.bind, Except.bind, Pure.pure, Except.pure,
      Except.ok.injEq] at h
    subst h
    cases tipo <;> rfl

/-- Witness for `c3_csv_type_mapping` at the `"Fazenda"` row. -/
theorem c3_csv_type_mapping_witness :
    mapRow ⟨some "Fazenda", some "1", some "2", some "a", some "5"⟩ =
      Except.ok { type := "fazenda", coords := ⟨some ⟨1, 0⟩, some ⟨2, 0⟩⟩,
                  frutas := ["a"], quantidade := QVal.str "5" } ∧
    ({ type := "fazenda", coords := ⟨some ⟨1, 0⟩, some ⟨2, 0⟩⟩,
       frutas := ["a"], quantidade := QVal.str "5" } : Marker).type =
      csvTypeSpec (some "Fazenda") :=
  ⟨by decide,
   c3_csv_type_mapping ⟨some "Fazenda", some "1", some "2", some "a", some "5"⟩
     _ (by decide)⟩

/-- Claim C4 counterexample: importing a CSV row tagged `"Fazenda"`
hands the Marker Store (via `onImport` → `setCsvMarkers` →
`setMarkers(importedMarkers)`) a marker whose type is `"fazenda"`,
which is neither of the two fixed tags. -/
theorem c4_csv_import_breaks_type_invariant :
    mapRows [⟨some "Fazenda", some "1", some "2", none, some "5"⟩] =
      Except.ok [{ type := "fazenda", coords := ⟨some ⟨1, 0⟩, some ⟨2, 0⟩⟩,
                   frutas := [], quantidade := QVal.str "5" }] ∧
    "fazenda" ≠ "mercado" ∧ "fazenda" ≠ "produtor" := by
  decide

/-- Claim C4 as amended: the form's `tipo` stays within the two fixed
tags as long as it starts there and every pre-fill sync stays there
(the toggle buttons can only produce the two tags), and a form save
stores exactly the form's `tipo` into the shared list; the invariant
fails only for CSV-imported types (see the counterexample). -/
theorem c4_form_type_invariant :
    (∀ (init : String) (evs : List FormEvent),
      (init = "mercado" ∨ init = "produtor") →
      (∀ mt, FormEvent.syncMarkerType mt ∈ evs →
        mt = "mercado" ∨ mt = "produtor") →
      (tipoAfter init evs = "mercado" ∨ tipoAfter init evs = "produtor")) ∧
    (∀ (st : FormState) (coords : Coords), (salvar st coords).tipo = st.tipo) ∧
    (∀ (s : MapState) (data : FormData) (i : Nat),
      s.selectedMarkerIndex = some i → i < s.markers.length →
      (handleSave_web s data).markers[i]? = some (savedMarker data) ∧
      (savedMarker data).type = data.tipo) := by
  refine ⟨?_, fun st coords => rfl, ?_⟩
  · intro init evs
    induction evs generalizing init with
    | nil => intro hinit _; simpa [tipoAfter] using hinit
    | cons e evs ih =>
      intro hinit hsync
      cases e with
      | pressMercado =>
        exact ih "mercado" (Or.inl rfl)
          (fun mt hm => hsync mt (List.mem_cons_of_mem _ hm))
      | pressProdutor =>
        exact ih "produtor" (Or.inr rfl)
          (fun mt hm => hsync mt (List.mem_cons_of_mem _ hm))
      | syncMarkerType mt =>
        exact ih mt (hsync mt (List.mem_cons_self _ _))
          (fun mt' hm => hsync mt' (List.mem_cons_of_mem _ hm))
  · intro s data i hsel hlt
    refine ⟨?_, rfl⟩
    simp only [handleSave_web, hsel, jsArraySet]
    exact List.getElem?_set_eq_of_lt (savedMarker data) hlt

/-- A concrete marker list and form edit for the C4 witness. -/
def dC4 : FormData :=
  { tipo := "produtor", coords := ⟨some ⟨3, 0⟩, some ⟨4, 0⟩⟩,
    frutas := ["Pera"], quantidade := "9" }

/-- Witness for `c4_form_type_invariant`: a concrete toggle run from
`"mercado"` and a concrete in-bounds save. -/
theorem c4_form_type_invariant_witness :
    (tipoAfter "mercado" [FormEvent.pressProdutor] = "mercado" ∨
     tipoAfter "mercado" [FormEvent.pressProdutor] = "produtor") ∧
    ((handleSave_web ⟨[mA, mB], some 1, true⟩ dC4).markers[1]? =
       some (savedMarker dC4) ∧
     (savedMarker dC4).type = dC4.tipo) :=
  ⟨c4_form_type_invariant.1 "mercado" [FormEvent.pressProdutor] (Or.inl rfl)
     (by intro mt hm; simp at hm),
   c4_form_type_invariant.2.2 ⟨[mA, mB], some 1, true⟩ dC4 1 rfl (by decide)⟩

/-- The CSV `quantidade` mapping as the amended claim C5 words it for
a present column: the number 10 when the field trims to empty,
otherwise the trimmed lowercased STRING itself. -/
def csvQuantidadeSpec (q : String) : QVal :=
  if jsToLower (jsTrim q) = "" then QVal.num (JNum.int 10)
  else QVal.str (jsToLower (jsTrim q))

/-- Claim C5 counterexample: the CSV row with `quantidade` `"5"`
imports a marker whose `quantidade` is the string `"5"`, not an
integer. -/
theorem c5_csv_quantidade_is_a_string :
    mapRow ⟨some "mercado", some "1", some "2", none, some "5"⟩ =
      Except.ok { type := "mercado", coords := ⟨some ⟨1, 0⟩, some ⟨2, 0⟩⟩,
                  frutas := [], quantidade := QVal.str "5" } ∧
    (QVal.str "5").isIntVal = false := by
  decide

/-- Claim C5 as amended: a form save stores
`parseInt(data.quantidade, 10)` — an integer only when the input has
leading digits, NaN otherwise — and a CSV import with the column
present stores `csvQuantidadeSpec` of the field: a string unless the
field trims to empty, in which case the number 10. -/
theorem c5_quantidade_characterization :
    (∀ data : FormData,
      (savedMarker data).quantidade = QVal.num (jsParseInt data.quantidade)) ∧
    (∀ (row : CsvRow) (m : Marker) (q : String), row.quantidade = some q →
      mapRow row = Except.ok m → m.quantidade = csvQuantidadeSpec q) := by
  refine ⟨fun data => rfl, ?_⟩
  intro row m q hq h
  obtain ⟨tipo, lat, long, produtos, quantidade⟩ := row
  cases hq
  simp only [mapRow, Bind.bind, Except.bind, Pure.pure, Except.pure,
    Except.ok.injEq] at h
  subst h
  rfl

/-- Witness for `c5_quantidade_characterization` at the row whose
`quantidade` field is `"5"`. -/
theorem c5_quantidade_characterization_witness :
    (⟨some "mercado", some "1", some "2", none, some "5"⟩ : CsvRow).quantidade =
      some "5" ∧
    ({ type := "mercado", coords := ⟨some ⟨1, 0⟩, some ⟨2, 0⟩⟩,
       frutas := [], quantidade := QVal.str "5" } : Marker).quantidade =
      csvQuantidadeSpec "5" :=
  ⟨rfl,
   c5_quantidade_characterization.2
     ⟨some "mercado", some "1", some "2", none, some "5"⟩ _ "5" rfl (by decide)⟩

/-- Claim C6: with an in-bounds selected index, both delete
implementations replace the marker list by exactly the original with
the element at that index removed (`eraseIdx` keeps every other
element in relative order), the length drops by one, the selection is
cleared and the form closed. -/
theorem c6_delete_removes_selected_index (ms : List Marker) (i : Nat)
    (sf : Bool) (h : i < ms.length) :
    handleDelete_web ⟨ms, some i, sf⟩ = ⟨ms.eraseIdx i, none, false⟩ ∧
    handleDelete_native ⟨ms, some i, sf⟩ = ⟨ms.eraseIdx i, none, false⟩ ∧
    (ms.eraseIdx i).length + 1 = ms.length := by
  have he := jsFilterWithIndex_eraseIdx ms i h
  refine ⟨?_, ?_, ?_⟩
  · simp only [handleDelete_web, he]
  · simp only [handleDelete_native, he]
  · have := List.length_eraseIdx_of_lt h
    omega

/-- Witness for `c6_delete_removes_selected_index`: deleting index 0
of a two-marker list. -/
theorem c6_delete_removes_selected_index_witness :
    (0 : Nat) < ([mA, mB] : List Marker).length ∧
    (handleDelete_web ⟨[mA, mB], some 0, true⟩ =
       ⟨[mA, mB].eraseIdx 0, none, false⟩ ∧
     handleDelete_native ⟨[mA, mB], some 0, true⟩ =
       ⟨[mA, mB].eraseIdx 0, none, false⟩ ∧
     ([mA, mB].eraseIdx 0).length + 1 = [mA, mB].length) :=
  ⟨by decide, c6_delete_removes_selected_index [mA, mB] 0 true (by decide)⟩

/-- The suggestion filter as claim C7 words it: a case-insensitive
LEADING match of the search string against each vocabulary entry,
still excluding already-selected fruits. -/
def specFrutasFiltradas (busca : String) (selecionadas : List String) :
    List String :=
  frutasDisponiveis.filter
    (fun f => chLeads (jsToLower busca).toList (jsToLower f).toList &&
      !(selecionadas.contains f))

/-- Claim C7 counterexample: searching `"an"` suggests `"Banana"`,
`"Laranja"`, `"Manga"` and `"Melancia"`, none of which begins with
`"an"` — the leading-match reading of the claim would suggest
nothing. -/
theorem c7_search_is_not_a_leading_match :
    frutasFiltradas "an" [] = ["Banana", "Laranja", "Manga", "Melancia"] ∧
    specFrutasFiltradas "an" [] = [] := by
  decide

/-- Claim C7 as amended: for a non-empty search string, the
suggestion list holds exactly the vocabulary fruits whose lowercased
name CONTAINS the lowercased search string as a contiguous substring
and that are not already selected. -/
theorem c7_suggestions_substring_match (busca : String)
    (sel : List String) (f : String) (_hb : busca ≠ "") :
    f ∈ frutasFiltradas busca sel ↔
      f ∈ frutasDisponiveis ∧
      (∃ l r, (jsToLower f).toList = l ++ (jsToLower busca).toList ++ r) ∧
      f ∉ sel := by
  unfold frutasFiltradas
  rw [List.mem_filter]
  simp only [jsIncludes, Bool.and_eq_true, Bool.not_eq_true', chSub_iff]
  constructor
  · rintro ⟨hmem, hsub, hc⟩
    exact ⟨hmem, hsub, by simpa using hc⟩
  · rintro ⟨hmem, hsub, hc⟩
    exact ⟨hmem, hsub, by simpa using hc⟩

/-- Witness for `c7_suggestions_substring_match`: `"Banana"` with the
non-empty search `"an"` and nothing selected. -/
theorem c7_suggestions_substring_match_witness :
    ("an" : String) ≠ "" ∧
    ("Banana" ∈ frutasFiltradas "an" [] ↔
      "Banana" ∈ frutasDisponiveis ∧
      (∃ l r, (jsToLower "Banana").toList =
        l ++ (jsToLower "an").toList ++ r) ∧
      "Banana" ∉ ([] : List String)) :=
  ⟨by decide, c7_suggestions_substring_match "an" [] "Banana" (by decide)⟩

/-- Claim C8: `submit` issues exactly one request, to
`{linkServer}/find-optimal-location/` (a concrete URL), with method
POST, a JSON content type and body the JSON serialization of the
marker list, and hands back whatever the platform `fetch` returned,
unmodified. -/
theorem c8_submit_single_post {β ρ : Type} (stringify : List Marker → β)
    (fetchFn : Request β → ρ) (markers : List Marker) :
    (submit stringify fetchFn markers).2 =
      [{ url := linkServer ++ "/find-optimal-location/", method := "POST",
         contentType := "application/json", body := stringify markers }] ∧
    linkServer ++ "/find-optimal-location/" =
      "http://127.0.0.1:8000/find-optimal-location/" ∧
    (submit stringify fetchFn markers).1 =
      fetchFn { url := linkServer ++ "/find-optimal-location/",
                method := "POST", contentType := "application/json",
                body := stringify markers } :=
  ⟨rfl, rfl, rfl⟩

/-- Claim C9: with no selected marker index, both delete
implementations leave the whole state — the shared marker list
included — untouched except for closing the form. -/
theorem c9_delete_without_selection_only_closes_form (s : MapState)
    (h : s.selectedMarkerIndex = none) :
    handleDelete_web s = { s with showForm := false } ∧
    handleDelete_native s = { s with showForm := false } := by
  obtain ⟨ms, sel, sf⟩ := s
  cases h
  exact ⟨rfl, rfl⟩

/-- Witness for `c9_delete_without_selection_only_closes_form`. -/
theorem c9_delete_without_selection_only_closes_form_witness :
    (MapState.mk [mA] none true).selectedMarkerIndex = none ∧
    (handleDelete_web ⟨[mA], none, true⟩ =
       { MapState.mk [mA] none true with showForm := false } ∧
     handleDelete_native ⟨[mA], none, true⟩ =
       { MapState.mk [mA] none true with showForm := false }) :=
  ⟨rfl, c9_delete_without_selection_only_closes_form ⟨[mA], none, true⟩ rfl⟩

/-- Claim C10: adding a fruit that is not yet selected and then
removing it restores the original selection (the add appends, the
remove filters out every occurrence, and there was none before). -/
theorem c10_add_then_remove_fresh_fruit (st : FormState) (fruta : String)
    (h : fruta ∉ st.selecionadas) :
    (removerFruta fruta (adicionarFruta fruta st)).selecionadas =
      st.selecionadas := by
  simp only [adicionarFruta, removerFruta, List.filter_append]
  rw [List.filter_eq_self.mpr, List.filter_cons]
  · simp
  · intro a ha
    exact bne_iff_ne.mpr (fun e => h (e ▸ ha))

/-- Witness for `c10_add_then_remove_fresh_fruit`: adding and
removing `"Uva"` over the selection `["Banana"]`. -/
theorem c10_add_then_remove_fresh_fruit_witness :
    ("Uva" : String) ∉ (["Banana"] : List String) ∧
    (removerFruta "Uva"
        (adicionarFruta "Uva" ⟨"", "mercado", "", ["Banana"]⟩)).selecionadas =
      (FormState.mk "" "mercado" "" ["Banana"]).selecionadas :=
  ⟨by decide,
   c10_add_then_remove_fresh_fruit ⟨"", "mercado", "", ["Banana"]⟩ "Uva"
     (by decide)⟩
